import Mathlib

/-!
Verification development for the realistic-camera optical core
(`src/cameras/realistic.rs`).  The camera code is shallowly embedded over
the real numbers: `f32` arithmetic is idealised as exact real arithmetic,
mutation becomes explicit state passing, Rust `bool` returns with `&mut`
out-parameters become `Option`/outcome types, and a failed `assert!`
(a Rust panic) is a distinguished outcome.

The repository's `core::` support modules (geometry, pbrt utilities,
reflection, low-discrepancy sampling) are not part of the provided source;
the handful of small helpers the camera uses from them are modelled from
the specification and marked `Modelled from the spec:` in their doc
comments.  Everything else is translated directly from
`src/cameras/realistic.rs`.
-/

noncomputable section

/-- A 3-d vector (componentwise real model of `core::geometry::Vector3f`). -/
structure Vector3f where
  x : ℝ
  y : ℝ
  z : ℝ
deriving Inhabited

/-- A 3-d point (componentwise real model of `core::geometry::Point3f`). -/
structure Point3f where
  x : ℝ
  y : ℝ
  z : ℝ
deriving Inhabited

/-- Surface normals are carried as vectors (`core::geometry::Normal3f`). -/
abbrev Normal3f := Vector3f

/-- A 2-d point (`core::geometry::Point2f`). -/
structure Point2f where
  x : ℝ
  y : ℝ
deriving Inhabited

/-- A 2-d axis-aligned bounding box (`core::geometry::Bounds2f`). -/
structure Bounds2f where
  p_min : Point2f
  p_max : Point2f
deriving Inhabited

/-- A ray: origin and direction.  The source `Ray` also carries `t_max`,
`time`, `medium` and differentials, none of which the camera tracing code
reads or writes, so they are omitted from the model. -/
structure Ray where
  o : Point3f
  d : Vector3f
deriving Inhabited

/-- Componentwise vector negation (`-v` in the source). -/
def vneg (v : Vector3f) : Vector3f := ⟨-v.x, -v.y, -v.z⟩

/-- Dot product of two vectors. -/
def vdot (a b : Vector3f) : ℝ := a.x * b.x + a.y * b.y + a.z * b.z

/-- Euclidean length of a vector. -/
def vlength (v : Vector3f) : ℝ := Real.sqrt (v.x * v.x + v.y * v.y + v.z * v.z)

/-- Modelled from the spec: `Vector3f::normalize` — the unit vector in the
direction of `v` (division by the Euclidean length). -/
def vnormalize (v : Vector3f) : Vector3f :=
  ⟨v.x / vlength v, v.y / vlength v, v.z / vlength v⟩

/-- Point difference gives the vector between two points. -/
def psub (a b : Point3f) : Vector3f := ⟨a.x - b.x, a.y - b.y, a.z - b.z⟩

/-- The point a parameter `t` along a ray (`Ray::position`, `o + d * t`). -/
def Ray.position (r : Ray) (t : ℝ) : Point3f :=
  ⟨r.o.x + r.d.x * t, r.o.y + r.d.y * t, r.o.z + r.d.z * t⟩

/-- Modelled from the spec: `Transform::scale(1,1,-1).transform_ray` — the
camera-to-lens (and lens-to-camera) change of convention flips the sign of
the axial (`z`) components of origin and direction (§4.2 "flipped-z
convention"). -/
def flip_z_ray (r : Ray) : Ray :=
  ⟨⟨r.o.x, r.o.y, -r.o.z⟩, ⟨r.d.x, r.d.y, -r.d.z⟩⟩

/-- Modelled from the spec: `core::geometry::nrm_faceforward_vec3` — flip
the normal so it lies in the same hemisphere as `v` (§4.1: the normal is
"flipped (face-forward) so it opposes the incoming ray direction"). -/
def nrm_faceforward_vec3 (n v : Vector3f) : Vector3f :=
  if vdot n v < 0 then vneg n else n

/-- Modelled from the spec: `core::pbrt::lerp` — linear interpolation
between `a` and `b`. -/
def lerp (t a b : ℝ) : ℝ := (1 - t) * a + t * b

/-- Modelled from the spec: `core::pbrt::quadratic` — solve
`a·t² + b·t + c = 0` over the reals; "no real roots ⇒ failure" (§4.1),
otherwise the two roots are produced in nondecreasing order.
(The float code's degenerate `a = 0` case produces infinities; here real
division by zero yields `0`.) -/
def quadratic (a b c : ℝ) : Option (ℝ × ℝ) :=
  let discrim : ℝ := b * b - 4 * a * c
  if discrim < 0 then none
  else
    let root_discrim := Real.sqrt discrim
    let r1 := (-b - root_discrim) / (2 * a)
    let r2 := (-b + root_discrim) / (2 * a)
    some (min r1 r2, max r1 r2)

/-- Modelled from the spec: `core::reflection::refract` — Snell's-law
refraction of `wi` about normal `n` with relative index `eta`; total
internal reflection (no real refracted direction) yields `none`
(§4.2, glossary). -/
def refract (wi : Vector3f) (n : Normal3f) (eta : ℝ) : Option Vector3f :=
  let cos_theta_i := vdot n wi
  let sin2_theta_i := max 0 (1 - cos_theta_i * cos_theta_i)
  let sin2_theta_t := eta * eta * sin2_theta_i
  if 1 ≤ sin2_theta_t then none
  else
    let cos_theta_t := Real.sqrt (1 - sin2_theta_t)
    some ⟨eta * (-wi.x) + (eta * cos_theta_i - cos_theta_t) * n.x,
          eta * (-wi.y) + (eta * cos_theta_i - cos_theta_t) * n.y,
          eta * (-wi.z) + (eta * cos_theta_i - cos_theta_t) * n.z⟩

/-- One physical lens surface (`LensElementInterface`). -/
structure LensElementInterface where
  curvature_radius : ℝ
  thickness : ℝ
  eta : ℝ
  aperture_radius : ℝ
deriving Inhabited

/-- The realistic camera state relevant to the optical core.  The source
struct additionally holds the camera-to-world transform, shutter times,
film handle and medium, which the lens code only passes through; the film
is consumed solely via its physical diagonal (spec §1), kept here as
`film_diagonal`. -/
structure RealisticCamera where
  simple_weighting : Bool
  element_interfaces : List LensElementInterface
  exit_pupil_bounds : List Bounds2f
  film_diagonal : ℝ

/-- `RealisticCamera::lens_rear_z`: thickness of the last element.
(The source unwraps `last()`; an empty prescription would panic, modelled
by the `default` element.) -/
def lens_rear_z (cam : RealisticCamera) : ℝ :=
  (cam.element_interfaces.getLastD default).thickness

/-- `RealisticCamera::lens_front_z`: sum of all element thicknesses. -/
def lens_front_z (cam : RealisticCamera) : ℝ :=
  cam.element_interfaces.foldl (fun z_sum element => z_sum + element.thickness) 0

/-- `RealisticCamera::rear_element_radius`: aperture radius of the last
element. -/
def rear_element_radius (cam : RealisticCamera) : ℝ :=
  (cam.element_interfaces.getLastD default).aperture_radius

/-- `RealisticCamera::intersect_spherical_element`, translated from the
source: build the ray/sphere quadratic, pick the root prescribed by the
direction/curvature rule, fail on a negative parameter, and face-forward
the normal. -/
def intersect_spherical_element (radius z_center : ℝ) (ray : Ray) :
    Option (ℝ × Normal3f) :=
  -- the source re-centres the origin, `o = ray.o - (0,0,z_center)`, and
  -- builds the quadratic coefficients `a = |d|²`, `b = 2 d·o`,
  -- `c = |o|² - radius²`, inlined here
  match quadratic (ray.d.x * ray.d.x + ray.d.y * ray.d.y + ray.d.z * ray.d.z)
      (2 * (ray.d.x * ray.o.x + ray.d.y * ray.o.y + ray.d.z * (ray.o.z - z_center)))
      (ray.o.x * ray.o.x + ray.o.y * ray.o.y
        + (ray.o.z - z_center) * (ray.o.z - z_center) - radius * radius) with
  | none => none
  | some (t0, t1) =>
    -- `use_closer_t = (ray.d.z > 0) ^ (radius < 0)` in the source
    let t := if ¬((0 < ray.d.z) ↔ (radius < 0)) then min t0 t1 else max t0 t1
    if t < 0 then none
    else
      some (t, nrm_faceforward_vec3
        (vnormalize ⟨ray.o.x + ray.d.x * t, ray.o.y + ray.d.y * t,
          (ray.o.z - z_center) + ray.d.z * t⟩)
        (vneg ray.d))

/-- Outcome of one loop iteration of a lens trace: continue with an
updated axial position and ray, return `false` early (`fail`), or hit the
`assert!(t >= 0.0)` with a negative `t` (`panic` — Rust aborts). -/
inductive StepRes where
  | cont (element_z : ℝ) (r_lens : Ray) : StepRes
  | fail : StepRes
  | panic : StepRes
deriving Inhabited

/-- Overall outcome of a lens trace: a successful camera-space output ray,
the explicit "no ray produced" result (`return false`), or a Rust panic
from a failed assertion. -/
inductive TraceOutcome where
  | ok (r : Ray) : TraceOutcome
  | noRay : TraceOutcome
  | panicked : TraceOutcome
deriving Inhabited

/-- One iteration of the `trace_lenses_from_film` loop at element index
`i` (the source iterates `i = len-1, …, 0`), translated from the source:
subtract the thickness first, intersect (plane for a stop after the
`d.z >= 0` guard, sphere otherwise), assert `t ≥ 0`, reject vignetted
hits, and refract at non-stop interfaces with
`eta_i = element.eta`, `eta_t = element_interfaces[i-1].eta` when `i > 0`
and that eta is nonzero, else `1`. -/
def film_step (elems : List LensElementInterface) (i : ℕ) (element_z : ℝ)
    (r_lens : Ray) : StepRes :=
  let element := elems.getD i default
  let element_z1 := element_z - element.thickness
  let is_stop := element.curvature_radius = 0
  let tn : Option (ℝ × Normal3f) :=
    if is_stop then
      if 0 ≤ r_lens.d.z then none
      else some ((element_z1 - r_lens.o.z) / r_lens.d.z, default)
    else
      intersect_spherical_element element.curvature_radius
        (element_z1 + element.curvature_radius) r_lens
  match tn with
  | none => .fail
  | some (t, n) =>
    if t < 0 then .panic
    else
      let p_hit := r_lens.position t
      let r2 := p_hit.x * p_hit.x + p_hit.y * p_hit.y
      if element.aperture_radius * element.aperture_radius < r2 then .fail
      else
        if is_stop then .cont element_z1 ⟨p_hit, r_lens.d⟩
        else
          let eta_i := element.eta
          let eta_t :=
            if 0 < i ∧ (elems.getD (i - 1) default).eta ≠ 0 then
              (elems.getD (i - 1) default).eta
            else 1
          match refract (vnormalize (vneg r_lens.d)) n (eta_i / eta_t) with
          | none => .fail
          | some w => .cont element_z1 ⟨p_hit, w⟩

/-- One iteration of the `trace_lenses_from_scene` loop at element index
`i` (the source iterates `i = 0, …, len-1`), translated from the source:
intersect at the current axial position (no direction guard at a stop),
assert `t ≥ 0`, reject vignetted hits, refract at non-stop interfaces with
`eta_i = element_interfaces[i-1].eta` (vacuum `1` when `i = 0` or that eta
is zero) and `eta_t = element.eta` (vacuum `1` when zero), and add the
thickness afterwards. -/
def scene_step (elems : List LensElementInterface) (i : ℕ) (element_z : ℝ)
    (r_lens : Ray) : StepRes :=
  let element := elems.getD i default
  let is_stop := element.curvature_radius = 0
  let tn : Option (ℝ × Normal3f) :=
    if is_stop then
      some ((element_z - r_lens.o.z) / r_lens.d.z, default)
    else
      intersect_spherical_element element.curvature_radius
        (element_z + element.curvature_radius) r_lens
  match tn with
  | none => .fail
  | some (t, n) =>
    if t < 0 then .panic
    else
      let p_hit := r_lens.position t
      let r2 := p_hit.x * p_hit.x + p_hit.y * p_hit.y
      if element.aperture_radius * element.aperture_radius < r2 then .fail
      else
        if is_stop then .cont (element_z + element.thickness) ⟨p_hit, r_lens.d⟩
        else
          let eta_i :=
            if i = 0 ∨ (elems.getD (i - 1) default).eta = 0 then 1
            else (elems.getD (i - 1) default).eta
          let eta_t := if element.eta ≠ 0 then element.eta else 1
          match refract (vnormalize (vneg r_lens.d)) n (eta_i / eta_t) with
          | none => .fail
          | some w => .cont (element_z + element.thickness) ⟨p_hit, w⟩

/-- Run the film-side trace loop over the given element indices. -/
def trace_film_aux (elems : List LensElementInterface) :
    List ℕ → ℝ → Ray → TraceOutcome
  | [], _, r_lens => .ok r_lens
  | i :: rest, element_z, r_lens =>
    match film_step elems i element_z r_lens with
    | .cont z1 r1 => trace_film_aux elems rest z1 r1
    | .fail => .noRay
    | .panic => .panicked

/-- Run the scene-side trace loop over the given element indices. -/
def trace_scene_aux (elems : List LensElementInterface) :
    List ℕ → ℝ → Ray → TraceOutcome
  | [], _, r_lens => .ok r_lens
  | i :: rest, element_z, r_lens =>
    match scene_step elems i element_z r_lens with
    | .cont z1 r1 => trace_scene_aux elems rest z1 r1
    | .fail => .noRay
    | .panic => .panicked

/-- `RealisticCamera::trace_lenses_from_film`: walk the elements from the
rear (film side) to the front, starting at axial position `0`, converting
to and from lens space with the flipped-z transform. -/
def trace_lenses_from_film (cam : RealisticCamera) (r_camera : Ray) :
    TraceOutcome :=
  match trace_film_aux cam.element_interfaces
      (List.range cam.element_interfaces.length).reverse 0
      (flip_z_ray r_camera) with
  | .ok r_lens => .ok (flip_z_ray r_lens)
  | .noRay => .noRay
  | .panicked => .panicked

/-- `RealisticCamera::trace_lenses_from_scene`: walk the elements from the
front to the rear, starting at axial position `-lens_front_z`. -/
def trace_lenses_from_scene (cam : RealisticCamera) (r_camera : Ray) :
    TraceOutcome :=
  match trace_scene_aux cam.element_interfaces
      (List.range cam.element_interfaces.length) (-(lens_front_z cam))
      (flip_z_ray r_camera) with
  | .ok r_lens => .ok (flip_z_ray r_lens)
  | .noRay => .noRay
  | .panicked => .panicked

/-- The Rust signature of `trace_lenses_from_film` returns a `bool` and
writes the `r_out: Option<&mut Ray>` out-parameter; this wrapper makes the
out-parameter explicit: the pair is the returned flag together with the
final contents of the caller's ray, and `none` models a panic unwinding
past the caller. -/
def trace_lenses_from_film_w (cam : RealisticCamera) (r_camera r_out : Ray) :
    Option (Bool × Ray) :=
  match trace_lenses_from_film cam r_camera with
  | .ok r => some (true, r)
  | .noRay => some (false, r_out)
  | .panicked => none

/-- Out-parameter wrapper for `trace_lenses_from_scene`, as for the film
direction. -/
def trace_lenses_from_scene_w (cam : RealisticCamera) (r_camera r_out : Ray) :
    Option (Bool × Ray) :=
  match trace_lenses_from_scene cam r_camera with
  | .ok r => some (true, r)
  | .noRay => some (false, r_out)
  | .panicked => none

/-- The element-interface construction loop of `RealisticCamera::new`:
consume the flat record list four values at a time; a stop record
(curvature `0`) takes the user aperture diameter unless the record's
declared maximum is smaller (then it is clamped, with a warning print).
Radius, thickness and the halved diameter are scaled by `0.001`; `eta` is
stored as read.  (A trailing partial record would be an out-of-bounds
panic in the source; it is dropped here and never exercised.) -/
def build_element_interfaces (aperture_diameter : ℝ) :
    List ℝ → List LensElementInterface
  | r0 :: r1 :: r2 :: r3 :: rest =>
    let diameter := if r0 = 0 then (if r3 < aperture_diameter then r3 else aperture_diameter) else r3
    { curvature_radius := r0 * 0.001
      thickness := r1 * 0.001
      eta := r2
      aperture_radius := diameter * 0.001 / 2 } ::
      build_element_interfaces aperture_diameter rest
  | _ => []

/-- `RealisticCamera::compute_cardinal_points`: from an incoming probe ray
and its traced output, the (principal-plane z, focal-point z) pair.  The
source writes into `pz[idx]`/`fz[idx]`; here the pair is returned. -/
def compute_cardinal_points (r_in r_out : Ray) : ℝ × ℝ :=
  let tf := -r_out.o.x / r_out.d.x
  let fz := -(r_out.position tf).z
  let tp := (r_in.o.x - r_out.o.x) / r_out.d.x
  let pz := -(r_out.position tp).z
  (pz, fz)

/-- `RealisticCamera::compute_thick_lens_approximation`: trace an
axis-parallel probe at height `0.001 * film.diagonal` from the scene side
and one from the film side; each probe must succeed (the source asserts,
so a failed or panicking probe is the fatal outcome `none`).  Returns
`((pz[0], pz[1]), (fz[0], fz[1]))`. -/
def compute_thick_lens_approximation (cam : RealisticCamera) :
    Option ((ℝ × ℝ) × (ℝ × ℝ)) :=
  let x := 0.001 * cam.film_diagonal
  let r_scene : Ray := ⟨⟨x, 0, lens_front_z cam + 1⟩, ⟨0, 0, -1⟩⟩
  match trace_lenses_from_scene cam r_scene with
  | .ok r_film =>
    let pzfz0 := compute_cardinal_points r_scene r_film
    let r_film1 : Ray := ⟨⟨x, 0, lens_rear_z cam - 1⟩, ⟨0, 0, 1⟩⟩
    match trace_lenses_from_film cam r_film1 with
    | .ok r_scene1 =>
      let pzfz1 := compute_cardinal_points r_film1 r_scene1
      some ((pzfz0.1, pzfz1.1), (pzfz0.2, pzfz1.2))
    | _ => none
  | _ => none

/-- `RealisticCamera::focus_thick_lens`: the closed-form thick-lens focus
solution.  The source asserts `c > 0.0` (a fatal panic otherwise),
modelled as `none`. -/
def focus_thick_lens (cam : RealisticCamera) (focus_distance : ℝ) : Option ℝ :=
  match compute_thick_lens_approximation cam with
  | none => none
  | some ((pz0, pz1), (fz0, _fz1)) =>
    let f := fz0 - pz0
    let z := -focus_distance
    let c := (pz1 - z - pz0) * (pz1 - z - 4 * f - pz0)
    if 0 < c then
      some ((cam.element_interfaces.getLastD default).thickness
        + 0.5 * (pz1 - z + pz0 - Real.sqrt c))
    else none

/-- Modelled from the spec: `core::geometry::pnt2_inside_bnd2` — the point
lies (inclusively) inside the box. -/
def pnt2_inside_bnd2 (p : Point2f) (b : Bounds2f) : Prop :=
  b.p_min.x ≤ p.x ∧ p.x ≤ b.p_max.x ∧ b.p_min.y ≤ p.y ∧ p.y ≤ b.p_max.y

instance (p : Point2f) (b : Bounds2f) : Decidable (pnt2_inside_bnd2 p b) := by
  unfold pnt2_inside_bnd2
  infer_instance

/-- Modelled from the spec: `core::geometry::bnd2_union_pnt2` — extend the
box to cover the point. -/
def bnd2_union_pnt2 (b : Bounds2f) (p : Point2f) : Bounds2f :=
  ⟨⟨min b.p_min.x p.x, min b.p_min.y p.y⟩, ⟨max b.p_max.x p.x, max b.p_max.y p.y⟩⟩

/-- Modelled from the spec: `core::geometry::bnd2_expand` — pad the box by
`delta` on every side. -/
def bnd2_expand (b : Bounds2f) (delta : ℝ) : Bounds2f :=
  ⟨⟨b.p_min.x - delta, b.p_min.y - delta⟩, ⟨b.p_max.x + delta, b.p_max.y + delta⟩⟩

/-- Length of a box's diagonal (`bounds.diagonal().length()`). -/
def bnd2_diagonal_length (b : Bounds2f) : ℝ :=
  Real.sqrt ((b.p_max.x - b.p_min.x) * (b.p_max.x - b.p_min.x)
    + (b.p_max.y - b.p_min.y) * (b.p_max.y - b.p_min.y))

/-- The largest finite `f32`, used by the empty default bounds. -/
def float_max : ℝ := 340282346638528859811704183484516925440

/-- Modelled from the spec: `Bounds2f::default()` — the empty box
(inverted extents, containing no point): §4.4 starts the accumulation with
no point inside. -/
def bnd2_default : Bounds2f :=
  ⟨⟨float_max, float_max⟩, ⟨-float_max, -float_max⟩⟩

/-- Modelled from the spec: `core::lowdiscrepancy::radical_inverse` in
base `b2 + 2` — mirror the base-`b` digits of `i` about the radix point:
`ri(0) = 0`, `ri(i) = ((i mod b) + ri(i / b)) / b`. -/
def rinv_core (b2 : ℕ) : ℕ → ℝ
  | 0 => 0
  | i + 1 =>
    ((((i + 1) % (b2 + 2) : ℕ) : ℝ) + rinv_core b2 ((i + 1) / (b2 + 2)))
      / ((b2 : ℝ) + 2)
termination_by i => i
decreasing_by exact Nat.div_lt_self (Nat.succ_pos _) (by omega)

/-- Modelled from the spec: low-discrepancy sample component — the source
passes base indices `0` and `1`, i.e. the prime bases `2` and `3`. -/
def radical_inverse (base_index a : ℕ) : ℝ :=
  rinv_core (if base_index = 0 then 0 else 1) a

/-- The fixed Monte-Carlo sample count of `bound_exit_pupil`
(`nSamples = 1024*1024`). -/
def n_samples : ℕ := 1024 * 1024

/-- The 1.5×-enlarged square projection of the rear element on the
sampling plane (`proj_rear_bounds` in `bound_exit_pupil`). -/
def proj_rear_bounds (cam : RealisticCamera) : Bounds2f :=
  ⟨⟨-1.5 * rear_element_radius cam, -1.5 * rear_element_radius cam⟩,
   ⟨1.5 * rear_element_radius cam, 1.5 * rear_element_radius cam⟩⟩

/-- The rear-plane aim point of sample `i` in `bound_exit_pupil`. -/
def bep_p_rear (cam : RealisticCamera) (i : ℕ) : Point3f :=
  ⟨lerp (radical_inverse 0 i) (proj_rear_bounds cam).p_min.x (proj_rear_bounds cam).p_max.x,
   lerp (radical_inverse 1 i) (proj_rear_bounds cam).p_min.y (proj_rear_bounds cam).p_max.y,
   lens_rear_z cam⟩

/-- The film point of sample `i` in `bound_exit_pupil`. -/
def bep_p_film (_cam : RealisticCamera) (x0 x1 : ℝ) (i : ℕ) : Point3f :=
  ⟨lerp (((i : ℝ) + 0.5) / (n_samples : ℝ)) x0 x1, 0, 0⟩

/-- The sampling loop of `bound_exit_pupil`, carrying the accumulated
pupil bounds and the count of exiting rays; `none` models a panic inside a
probe trace.  The source iterates `i = 0, …, n_samples - 1` in ascending
order; here the recursion counts the `remaining` samples down, so with
`remaining + 1` samples left the current index is
`i = n_samples - (remaining + 1)` (the first call, with all `n_samples`
remaining, processes `i = 0`). -/
def bep_loop (cam : RealisticCamera) (x0 x1 : ℝ) :
    ℕ → Bounds2f × ℕ → Option (Bounds2f × ℕ)
  | 0, s => some s
  | remaining + 1, (pupil_bounds, n_exiting) =>
    let i := n_samples - (remaining + 1)
    let p_film := bep_p_film cam x0 x1 i
    let p_rear := bep_p_rear cam i
    if pnt2_inside_bnd2 ⟨p_rear.x, p_rear.y⟩ pupil_bounds then
      bep_loop cam x0 x1 remaining
        (bnd2_union_pnt2 pupil_bounds ⟨p_rear.x, p_rear.y⟩, n_exiting + 1)
    else
      match trace_lenses_from_film cam ⟨p_film, psub p_rear p_film⟩ with
      | .ok _ =>
        bep_loop cam x0 x1 remaining
          (bnd2_union_pnt2 pupil_bounds ⟨p_rear.x, p_rear.y⟩, n_exiting + 1)
      | .noRay => bep_loop cam x0 x1 remaining (pupil_bounds, n_exiting)
      | .panicked => none

/-- `RealisticCamera::bound_exit_pupil`: run the fixed-count sampling
loop; if no sample exited, return the enlarged projected rear bounds
unchanged, otherwise expand the accumulated bounds by
`2 * diagonal / sqrt(n_samples)`. -/
def bound_exit_pupil (cam : RealisticCamera) (x0 x1 : ℝ) : Option Bounds2f :=
  (bep_loop cam x0 x1 n_samples (bnd2_default, 0)).map
    (fun s =>
      if s.2 = 0 then proj_rear_bounds cam
      else
        bnd2_expand s.1
          (2 * bnd2_diagonal_length (proj_rear_bounds cam)
            / Real.sqrt (n_samples : ℝ)))

/-- `RealisticCamera::focus_distance` is an unfinished stub: it computes
`bound_exit_pupil(0, 0.001 * film.diagonal)` (whose value is discarded;
the whole probing body is commented out with a `WORK` marker) and returns
the placeholder `0.0`.  `none` models a panic escaping the
`bound_exit_pupil` call; the `film_dist` argument is never read. -/
def focus_distance (cam : RealisticCamera) (_film_dist : ℝ) : Option ℝ :=
  (bound_exit_pupil cam 0 (0.001 * cam.film_diagonal)).map (fun _ => 0)

/-- Outcome of a fuel-instrumented `while` loop: a produced value, fuel
exhaustion with the guard still true (`spin` — the concrete loop would
keep running), or a panic inside the guard. -/
inductive LoopRes where
  | val (x : ℝ) : LoopRes
  | spin : LoopRes
  | panicked : LoopRes
deriving Inhabited

/-- The bracket-lowering loop of `focus_binary_search`:
`while focus_distance(film_distance_lower) > focus_distance { lower *= 1.005 }`,
instrumented with fuel. -/
def expand_lower (cam : RealisticCamera) (focus_dist : ℝ) :
    ℕ → ℝ → LoopRes
  | 0, lower =>
    match focus_distance cam lower with
    | none => .panicked
    | some v => if focus_dist < v then .spin else .val lower
  | fuel + 1, lower =>
    match focus_distance cam lower with
    | none => .panicked
    | some v =>
      if focus_dist < v then expand_lower cam focus_dist fuel (lower * 1.005)
      else .val lower

/-- The bracket-raising loop of `focus_binary_search`:
`while focus_distance(film_distance_upper) < focus_distance { upper /= 1.005 }`,
instrumented with fuel. -/
def expand_upper (cam : RealisticCamera) (focus_dist : ℝ) :
    ℕ → ℝ → LoopRes
  | 0, upper =>
    match focus_distance cam upper with
    | none => .panicked
    | some v => if v < focus_dist then .spin else .val upper
  | fuel + 1, upper =>
    match focus_distance cam upper with
    | none => .panicked
    | some v =>
      if v < focus_dist then expand_upper cam focus_dist fuel (upper / 1.005)
      else .val upper

/-- `RealisticCamera::focus_binary_search`: seed both bracket ends with
`focus_thick_lens` (whose fatal assert is a panic), run the two expansion
loops, and — the bisection being commented out in the source (`WORK`) —
return the placeholder `0.0`. -/
def focus_binary_search (cam : RealisticCamera) (focus_dist : ℝ) (fuel : ℕ) :
    LoopRes :=
  match focus_thick_lens cam focus_dist with
  | none => .panicked
  | some film_distance_upper =>
    match expand_lower cam focus_dist fuel film_distance_upper with
    | .panicked => .panicked
    | .spin => .spin
    | .val _ =>
      match expand_upper cam focus_dist fuel film_distance_upper with
      | .panicked => .panicked
      | .spin => .spin
      | .val _ => .val 0

/-- The camera value built by `RealisticCamera::new` before the focusing
call: the parsed element interfaces, an empty exit-pupil cache
(`exit_pupil_bounds: Vec::new()`), and the configuration flags. -/
def mk_realistic_camera (simple_weighting : Bool) (lens_data : List ℝ)
    (aperture_diameter film_diagonal : ℝ) : RealisticCamera :=
  { simple_weighting := simple_weighting
    element_interfaces := build_element_interfaces aperture_diameter lens_data
    exit_pupil_bounds := []
    film_diagonal := film_diagonal }

/-- `RealisticCamera::new`: build the camera, then run
`focus_binary_search(focus_distance)` (whose return value the source
discards — the `WORK` marker).  Construction completes only if that call
returns; `none` models the construction spinning forever or panicking. -/
def RealisticCamera.new (simple_weighting : Bool) (lens_data : List ℝ)
    (aperture_diameter focus_dist film_diagonal : ℝ) (fuel : ℕ) :
    Option RealisticCamera :=
  let cam := mk_realistic_camera simple_weighting lens_data aperture_diameter
    film_diagonal
  match focus_binary_search cam focus_dist fuel with
  | .val _ => some cam
  | .spin => none
  | .panicked => none

/-- A camera whose prescription is a single aperture stop of zero
thickness and aperture radius `1` (so the rear sampling plane coincides
with the film plane and every probe ray is axial-degenerate). -/
def zero_stop_cam : RealisticCamera :=
  { simple_weighting := true
    element_interfaces := [⟨0, 0, 0, 1⟩]
    exit_pupil_bounds := []
    film_diagonal := 1 }

/-- The concrete probe ray used by the C2 witness. -/
def c2_ray : Ray := ⟨⟨0, 0, -2⟩, ⟨0, 0, 1⟩⟩

/-- A camera whose prescription is a single aperture stop of thickness `1`
and aperture radius `1`. -/
def stop_cam : RealisticCamera :=
  { simple_weighting := true
    element_interfaces := [⟨0, 1, 0, 1⟩]
    exit_pupil_bounds := []
    film_diagonal := 1 }

/-! ## Helper lemmas -/

theorem quadratic_roots_sorted (a b c t0 t1 : ℝ)
    (h : quadratic a b c = some (t0, t1)) : t0 ≤ t1 := by
  unfold quadratic at h
  by_cases hd : b * b - 4 * a * c < 0
  · simp [hd] at h
  · simp only [hd, if_false] at h
    simp only [Option.some.injEq, Prod.mk.injEq] at h
    obtain ⟨h0, h1⟩ := h
    rw [← h0, ← h1]
    exact min_le_max

theorem intersect_t_nonneg (radius z_center : ℝ) (ray : Ray) (t : ℝ)
    (n : Normal3f)
    (h : intersect_spherical_element radius z_center ray = some (t, n)) :
    0 ≤ t := by
  unfold intersect_spherical_element at h
  rcases hqv : quadratic
      (ray.d.x * ray.d.x + ray.d.y * ray.d.y + ray.d.z * ray.d.z)
      (2 * (ray.d.x * ray.o.x + ray.d.y * ray.o.y + ray.d.z * (ray.o.z - z_center)))
      (ray.o.x * ray.o.x + ray.o.y * ray.o.y
        + (ray.o.z - z_center) * (ray.o.z - z_center) - radius * radius)
    with _ | ⟨t0, t1⟩
  · rw [hqv] at h
    simp at h
  · rw [hqv] at h
    dsimp only at h
    by_cases hneg :
        (if ¬((0 < ray.d.z) ↔ (radius < 0)) then min t0 t1 else max t0 t1) < 0
    · rw [if_pos hneg] at h
      simp at h
    · rw [if_neg hneg] at h
      simp only [Option.some.injEq, Prod.mk.injEq] at h
      rw [← h.1]
      exact not_lt.mp hneg

/-! ## Claim C2 -/

/-- Claim C2: for every call to `intersect_spherical_element` with a ray
whose quadratic has real roots `t0 ≤ t1`, the selected `t` is the smaller
root exactly when `(ray.d.z > 0) XOR (radius < 0)` (the `¬(· ↔ ·)` below)
and the larger root otherwise, and the call returns no intersection
whenever the selected `t` is negative. -/
theorem intersect_spherical_element_root_selection
    (radius z_center : ℝ) (ray : Ray) (t0 t1 : ℝ)
    (hq : quadratic
      (ray.d.x * ray.d.x + ray.d.y * ray.d.y + ray.d.z * ray.d.z)
      (2 * (ray.d.x * ray.o.x + ray.d.y * ray.o.y + ray.d.z * (ray.o.z - z_center)))
      (ray.o.x * ray.o.x + ray.o.y * ray.o.y
        + (ray.o.z - z_center) * (ray.o.z - z_center) - radius * radius)
      = some (t0, t1)) :
    t0 ≤ t1 ∧
    (¬((0 < ray.d.z) ↔ (radius < 0)) → t0 < 0 →
      intersect_spherical_element radius z_center ray = none) ∧
    (¬((0 < ray.d.z) ↔ (radius < 0)) → 0 ≤ t0 →
      ∃ n, intersect_spherical_element radius z_center ray = some (t0, n)) ∧
    (((0 < ray.d.z) ↔ (radius < 0)) → t1 < 0 →
      intersect_spherical_element radius z_center ray = none) ∧
    (((0 < ray.d.z) ↔ (radius < 0)) → 0 ≤ t1 →
      ∃ n, intersect_spherical_element radius z_center ray = some (t1, n)) := by
  have hle : t0 ≤ t1 := quadratic_roots_sorted _ _ _ _ _ hq
  have hmin : min t0 t1 = t0 := min_eq_left hle
  have hmax : max t0 t1 = t1 := max_eq_right hle
  unfold intersect_spherical_element
  rw [hq]
  dsimp only
  refine ⟨hle, ?_, ?_, ?_, ?_⟩
  · intro hxor ht
    simp only [hxor, not_false_iff, if_true, hmin]
    rw [if_pos ht]
  · intro hxor ht
    simp only [hxor, not_false_iff, if_true, hmin]
    exact ⟨_, if_neg (not_lt.mpr ht)⟩
  · intro hiff ht
    simp only [hiff, not_true, if_false, hmax]
    rw [if_pos ht]
  · intro hiff ht
    simp only [hiff, not_true, if_false, hmax]
    exact ⟨_, if_neg (not_lt.mpr ht)⟩

/-- Witness for C2: the unit sphere centred at the origin, hit by an
axial ray from `z = -2`; the quadratic has roots `1 ≤ 3`, the XOR
condition selects the smaller root `1 ≥ 0`, and the intersection indeed
returns `t = 1`. -/
theorem intersect_spherical_element_root_selection_witness :
    ∃ n, intersect_spherical_element 1 0 c2_ray = some (1, n) := by
  have hs : Real.sqrt 4 = 2 := by
    rw [show (4 : ℝ) = 2 ^ 2 by norm_num]
    exact Real.sqrt_sq (by norm_num)
  have hq : quadratic
      (c2_ray.d.x * c2_ray.d.x + c2_ray.d.y * c2_ray.d.y + c2_ray.d.z * c2_ray.d.z)
      (2 * (c2_ray.d.x * c2_ray.o.x + c2_ray.d.y * c2_ray.o.y
        + c2_ray.d.z * (c2_ray.o.z - 0)))
      (c2_ray.o.x * c2_ray.o.x + c2_ray.o.y * c2_ray.o.y
        + (c2_ray.o.z - 0) * (c2_ray.o.z - 0) - 1 * 1)
      = some (1, 3) := by
    unfold quadratic c2_ray
    norm_num [hs]
  have h := intersect_spherical_element_root_selection 1 0 c2_ray 1 3 hq
  exact h.2.2.1 (by norm_num [c2_ray]) (by norm_num)

/-! ## Claim C7 -/

/-- Counterexample to Claim C7 as stated: for the loaded record
`[1, 1, 3/2, 4]` the stored refractive index is the file value `3/2`
itself, not the `0.001`-scaled value — the source stores
`eta: lens_data[i + 2]` without the scale factor applied to the other
three fields. -/
theorem eta_not_scaled_counterexample :
    ((build_element_interfaces 1 [1, 1, 3/2, 4]).headD default).eta = 3 / 2 ∧
    ((build_element_interfaces 1 [1, 1, 3/2, 4]).headD default).eta
      ≠ 0.001 * (3 / 2) := by
  constructor
  · rfl
  · simp only [build_element_interfaces, List.headD]
    norm_num

/-- Claim C7 (amended): for every record loaded at construction, the
curvature radius, the thickness, and the aperture diameter (the stop
diameter first clamped against the user's aperture diameter, then halved
to a radius) are scaled by `0.001`; the refractive index `eta` is stored
unscaled. -/
theorem build_element_interfaces_scaling (aperture_diameter r0 r1 r2 r3 : ℝ)
    (rest : List ℝ) :
    build_element_interfaces aperture_diameter (r0 :: r1 :: r2 :: r3 :: rest) =
      { curvature_radius := 0.001 * r0
        thickness := 0.001 * r1
        eta := r2
        aperture_radius := 0.001
          * (if r0 = 0 then (if r3 < aperture_diameter then r3 else aperture_diameter)
             else r3) / 2 } ::
        build_element_interfaces aperture_diameter rest := by
  simp only [build_element_interfaces, List.cons.injEq, LensElementInterface.mk.injEq]
  refine ⟨⟨?_, ?_, ?_, ?_⟩, trivial⟩ <;> ring_nf

/-! ## Claim C4 -/

/-- Claim C4: `focus_thick_lens(focus_distance)`, in terms of the cardinal
points `((pz0, pz1), (fz0, fz1))` produced by the thick-lens
approximation, with `f = fz0 - pz0`, `z = -focus_distance` and
`c = (pz1 - z - pz0) * (pz1 - z - 4f - pz0)`, fails fatally whenever
`c ≤ 0`, and when `c > 0` returns exactly the last element's thickness
plus `0.5 * (pz1 - z + pz0 - sqrt c)`. -/
theorem focus_thick_lens_formula (cam : RealisticCamera) (fd : ℝ) :
    focus_thick_lens cam fd =
      (compute_thick_lens_approximation cam).bind (fun pzfz =>
        if 0 < (pzfz.1.2 - (-fd) - pzfz.1.1)
            * (pzfz.1.2 - (-fd) - 4 * (pzfz.2.1 - pzfz.1.1) - pzfz.1.1) then
          some ((cam.element_interfaces.getLastD default).thickness
            + 0.5 * (pzfz.1.2 - (-fd) + pzfz.1.1
              - Real.sqrt ((pzfz.1.2 - (-fd) - pzfz.1.1)
                * (pzfz.1.2 - (-fd) - 4 * (pzfz.2.1 - pzfz.1.1) - pzfz.1.1))))
        else none) := by
  unfold focus_thick_lens
  rcases compute_thick_lens_approximation cam with _ | ⟨⟨pz0, pz1⟩, fz0, fz1⟩
  · rfl
  · rfl

/-! ## Step-function characterizations (helpers for the trace claims) -/

theorem film_step_nonstop (elems : List LensElementInterface) (i : ℕ)
    (z : ℝ) (r : Ray)
    (hstop : (elems.getD i default).curvature_radius ≠ 0) :
    film_step elems i z r =
      match intersect_spherical_element (elems.getD i default).curvature_radius
          (z - (elems.getD i default).thickness
            + (elems.getD i default).curvature_radius) r with
      | none => .fail
      | some (t, n) =>
        if t < 0 then .panic
        else if (elems.getD i default).aperture_radius
            * (elems.getD i default).aperture_radius
            < (r.position t).x * (r.position t).x
              + (r.position t).y * (r.position t).y then .fail
        else
          match refract (vnormalize (vneg r.d)) n
            ((elems.getD i default).eta /
              (if 0 < i ∧ (elems.getD (i - 1) default).eta ≠ 0 then
                (elems.getD (i - 1) default).eta
              else 1)) with
          | none => .fail
          | some w => .cont (z - (elems.getD i default).thickness)
              ⟨r.position t, w⟩ := by
  unfold film_step
  simp only [if_neg hstop]

theorem film_step_stop (elems : List LensElementInterface) (i : ℕ)
    (z : ℝ) (r : Ray)
    (hstop : (elems.getD i default).curvature_radius = 0) :
    film_step elems i z r =
      if 0 ≤ r.d.z then .fail
      else
        if (z - (elems.getD i default).thickness - r.o.z) / r.d.z < 0 then .panic
        else if (elems.getD i default).aperture_radius
            * (elems.getD i default).aperture_radius
            < (r.position ((z - (elems.getD i default).thickness - r.o.z) / r.d.z)).x
              * (r.position ((z - (elems.getD i default).thickness - r.o.z) / r.d.z)).x
              + (r.position ((z - (elems.getD i default).thickness - r.o.z) / r.d.z)).y
              * (r.position ((z - (elems.getD i default).thickness - r.o.z) / r.d.z)).y
          then .fail
        else .cont (z - (elems.getD i default).thickness)
          ⟨r.position ((z - (elems.getD i default).thickness - r.o.z) / r.d.z), r.d⟩ := by
  unfold film_step
  simp only [if_pos hstop]
  by_cases hdz : 0 ≤ r.d.z
  · simp only [if_pos hdz]
  · simp only [if_neg hdz]

theorem scene_step_stop (elems : List LensElementInterface) (i : ℕ)
    (z : ℝ) (r : Ray)
    (hstop : (elems.getD i default).curvature_radius = 0) :
    scene_step elems i z r =
      if (z - r.o.z) / r.d.z < 0 then .panic
      else if (elems.getD i default).aperture_radius
          * (elems.getD i default).aperture_radius
          < (r.position ((z - r.o.z) / r.d.z)).x * (r.position ((z - r.o.z) / r.d.z)).x
            + (r.position ((z - r.o.z) / r.d.z)).y * (r.position ((z - r.o.z) / r.d.z)).y
        then .fail
      else .cont (z + (elems.getD i default).thickness)
        ⟨r.position ((z - r.o.z) / r.d.z), r.d⟩ := by
  unfold scene_step
  simp only [if_pos hstop]

theorem scene_step_nonstop (elems : List LensElementInterface) (i : ℕ)
    (z : ℝ) (r : Ray)
    (hstop : (elems.getD i default).curvature_radius ≠ 0) :
    scene_step elems i z r =
      match intersect_spherical_element (elems.getD i default).curvature_radius
          (z + (elems.getD i default).curvature_radius) r with
      | none => .fail
      | some (t, n) =>
        if t < 0 then .panic
        else if (elems.getD i default).aperture_radius
            * (elems.getD i default).aperture_radius
            < (r.position t).x * (r.position t).x
              + (r.position t).y * (r.position t).y then .fail
        else
          match refract (vnormalize (vneg r.d)) n
            ((if i = 0 ∨ (elems.getD (i - 1) default).eta = 0 then 1
              else (elems.getD (i - 1) default).eta) /
             (if (elems.getD i default).eta ≠ 0 then (elems.getD i default).eta
              else 1)) with
          | none => .fail
          | some w => .cont (z + (elems.getD i default).thickness)
              ⟨r.position t, w⟩ := by
  unfold scene_step
  simp only [if_neg hstop]

/-! ## Claim C3 -/

/-- Claim C3: in `trace_lenses_from_film`, at every refracting (non-stop)
element index `i` that the walk reaches with axial position `z` and lens
ray `r` (the intersection succeeding and the hit clearing the aperture),
the Snell refraction is invoked with incoming index the current element's
`eta` and outgoing index the eta of element `i - 1` (the next one toward
the film), an outgoing eta of `0` — or `i = 0` — being treated as vacuum
index `1`; if `refract` reports total internal reflection the whole trace
fails with no output ray, and otherwise the walk continues with the
refracted direction. -/
theorem trace_from_film_refraction_etas
    (elems : List LensElementInterface) (i : ℕ) (z : ℝ) (r : Ray)
    (rest : List ℕ) (t : ℝ) (n : Normal3f)
    (hstop : (elems.getD i default).curvature_radius ≠ 0)
    (hint : intersect_spherical_element (elems.getD i default).curvature_radius
      (z - (elems.getD i default).thickness
        + (elems.getD i default).curvature_radius) r = some (t, n))
    (hap : (r.position t).x * (r.position t).x
        + (r.position t).y * (r.position t).y
      ≤ (elems.getD i default).aperture_radius
        * (elems.getD i default).aperture_radius) :
    (refract (vnormalize (vneg r.d)) n
        ((elems.getD i default).eta /
          (if i = 0 ∨ (elems.getD (i - 1) default).eta = 0 then 1
           else (elems.getD (i - 1) default).eta)) = none →
      trace_film_aux elems (i :: rest) z r = .noRay) ∧
    (∀ w, refract (vnormalize (vneg r.d)) n
        ((elems.getD i default).eta /
          (if i = 0 ∨ (elems.getD (i - 1) default).eta = 0 then 1
           else (elems.getD (i - 1) default).eta)) = some w →
      trace_film_aux elems (i :: rest) z r
        = trace_film_aux elems rest (z - (elems.getD i default).thickness)
            ⟨r.position t, w⟩) := by
  have heta : (if 0 < i ∧ (elems.getD (i - 1) default).eta ≠ 0 then
        (elems.getD (i - 1) default).eta
      else (1 : ℝ))
      = (if i = 0 ∨ (elems.getD (i - 1) default).eta = 0 then 1
         else (elems.getD (i - 1) default).eta) := by
    by_cases h1 : i = 0
    · subst h1
      rw [if_neg, if_pos (Or.inl rfl)]
      intro hcon
      exact absurd hcon.1 (by omega)
    · by_cases h2 : (elems.getD (i - 1) default).eta = 0
      · rw [if_neg, if_pos (Or.inr h2)]
        intro hcon
        exact hcon.2 h2
      · rw [if_pos ⟨Nat.pos_of_ne_zero h1, h2⟩, if_neg]
        intro hcon
        rcases hcon with hcon | hcon
        · exact h1 hcon
        · exact h2 hcon
  have hcons : trace_film_aux elems (i :: rest) z r
      = match film_step elems i z r with
        | .cont z1 r1 => trace_film_aux elems rest z1 r1
        | .fail => .noRay
        | .panic => .panicked := rfl
  have hstep := film_step_nonstop elems i z r hstop
  rw [hint] at hstep
  dsimp only at hstep
  rw [if_neg (not_lt.mpr (intersect_t_nonneg _ _ _ _ _ hint)),
    if_neg (not_lt.mpr hap), heta] at hstep
  constructor
  · intro hr
    rw [hcons, hstep, hr]
  · intro w hr
    rw [hcons, hstep, hr]

/-- Witness for C3: a single refracting element of curvature radius `1`,
zero thickness, `eta = 2` and aperture radius `10`, traversed by the axial
ray from `z = -1`; the element is the rearmost (`i = 0`), so the outgoing
index is vacuum `1`, the refraction succeeds, and the trace continues to a
successful output ray. -/
theorem trace_from_film_refraction_etas_witness :
    trace_film_aux [⟨1, 0, 2, 10⟩] [0] 0 ⟨⟨0, 0, -1⟩, ⟨0, 0, 1⟩⟩
      = .ok ⟨⟨0, 0, 0⟩, ⟨0, 0, 1⟩⟩ := by
  have hs4 : Real.sqrt 4 = 2 := by
    rw [show (4 : ℝ) = 2 ^ 2 by norm_num]
    exact Real.sqrt_sq (by norm_num)
  refine Eq.trans
    ((trace_from_film_refraction_etas [⟨1, 0, 2, 10⟩] 0 0
      ⟨⟨0, 0, -1⟩, ⟨0, 0, 1⟩⟩ [] 1 ⟨0, 0, -1⟩ ?_ ?_ ?_).2 ⟨0, 0, 1⟩ ?_) ?_
  · norm_num [List.getD]
  · unfold intersect_spherical_element quadratic
    norm_num [List.getD, hs4, min_def, max_def, nrm_faceforward_vec3, vdot,
      vneg, vnormalize, vlength, Real.sqrt_one]
  · norm_num [List.getD, Ray.position]
  · unfold refract
    norm_num [List.getD, vneg, vnormalize, vlength, vdot, Real.sqrt_one,
      max_def]
  · norm_num [trace_film_aux, Ray.position]

/-! ## Claim C5 -/

/-- Claim C5 (amended): vignetting (at stop and refracting elements alike)
and total internal reflection make both tracers return the explicit no-ray
result, and a ray with non-negative axial direction at a stop makes
`trace_lenses_from_film` return no-ray;
but `trace_lenses_from_scene` has no stop-direction guard, so a
stop-facing ray whose stop-plane parameter is negative trips
`assert!(t >= 0.0)` and panics instead of producing the no-ray result. -/
theorem trace_failure_outcomes (elems : List LensElementInterface) (i : ℕ)
    (z : ℝ) (r : Ray) (rest : List ℕ) :
    ((elems.getD i default).curvature_radius = 0 → 0 ≤ r.d.z →
      trace_film_aux elems (i :: rest) z r = .noRay) ∧
    ((elems.getD i default).curvature_radius = 0 →
      (z - r.o.z) / r.d.z < 0 →
      trace_scene_aux elems (i :: rest) z r = .panicked) ∧
    (∀ t n, (elems.getD i default).curvature_radius ≠ 0 →
      intersect_spherical_element (elems.getD i default).curvature_radius
        (z - (elems.getD i default).thickness
          + (elems.getD i default).curvature_radius) r = some (t, n) →
      (elems.getD i default).aperture_radius * (elems.getD i default).aperture_radius
        < (r.position t).x * (r.position t).x + (r.position t).y * (r.position t).y →
      trace_film_aux elems (i :: rest) z r = .noRay) ∧
    (∀ t n, (elems.getD i default).curvature_radius ≠ 0 →
      intersect_spherical_element (elems.getD i default).curvature_radius
        (z + (elems.getD i default).curvature_radius) r = some (t, n) →
      (elems.getD i default).aperture_radius * (elems.getD i default).aperture_radius
        < (r.position t).x * (r.position t).x + (r.position t).y * (r.position t).y →
      trace_scene_aux elems (i :: rest) z r = .noRay) ∧
    ((elems.getD i default).curvature_radius = 0 → r.d.z < 0 →
      0 ≤ (z - (elems.getD i default).thickness - r.o.z) / r.d.z →
      (elems.getD i default).aperture_radius * (elems.getD i default).aperture_radius
        < (r.position ((z - (elems.getD i default).thickness - r.o.z) / r.d.z)).x
            * (r.position ((z - (elems.getD i default).thickness - r.o.z) / r.d.z)).x
          + (r.position ((z - (elems.getD i default).thickness - r.o.z) / r.d.z)).y
            * (r.position ((z - (elems.getD i default).thickness - r.o.z) / r.d.z)).y →
      trace_film_aux elems (i :: rest) z r = .noRay) ∧
    ((elems.getD i default).curvature_radius = 0 →
      0 ≤ (z - r.o.z) / r.d.z →
      (elems.getD i default).aperture_radius * (elems.getD i default).aperture_radius
        < (r.position ((z - r.o.z) / r.d.z)).x * (r.position ((z - r.o.z) / r.d.z)).x
          + (r.position ((z - r.o.z) / r.d.z)).y * (r.position ((z - r.o.z) / r.d.z)).y →
      trace_scene_aux elems (i :: rest) z r = .noRay) ∧
    (∀ t n, (elems.getD i default).curvature_radius ≠ 0 →
      intersect_spherical_element (elems.getD i default).curvature_radius
        (z - (elems.getD i default).thickness
          + (elems.getD i default).curvature_radius) r = some (t, n) →
      (r.position t).x * (r.position t).x + (r.position t).y * (r.position t).y
        ≤ (elems.getD i default).aperture_radius * (elems.getD i default).aperture_radius →
      refract (vnormalize (vneg r.d)) n
        ((elems.getD i default).eta /
          (if 0 < i ∧ (elems.getD (i - 1) default).eta ≠ 0 then
            (elems.getD (i - 1) default).eta
          else 1)) = none →
      trace_film_aux elems (i :: rest) z r = .noRay) ∧
    (∀ t n, (elems.getD i default).curvature_radius ≠ 0 →
      intersect_spherical_element (elems.getD i default).curvature_radius
        (z + (elems.getD i default).curvature_radius) r = some (t, n) →
      (r.position t).x * (r.position t).x + (r.position t).y * (r.position t).y
        ≤ (elems.getD i default).aperture_radius * (elems.getD i default).aperture_radius →
      refract (vnormalize (vneg r.d)) n
        ((if i = 0 ∨ (elems.getD (i - 1) default).eta = 0 then 1
          else (elems.getD (i - 1) default).eta) /
         (if (elems.getD i default).eta ≠ 0 then (elems.getD i default).eta
          else 1)) = none →
      trace_scene_aux elems (i :: rest) z r = .noRay) := by
  have hconsf : trace_film_aux elems (i :: rest) z r
      = match film_step elems i z r with
        | .cont z1 r1 => trace_film_aux elems rest z1 r1
        | .fail => .noRay
        | .panic => .panicked := rfl
  have hconss : trace_scene_aux elems (i :: rest) z r
      = match scene_step elems i z r with
        | .cont z1 r1 => trace_scene_aux elems rest z1 r1
        | .fail => .noRay
        | .panic => .panicked := rfl
  refine ⟨?_, ?_, ?_, ?_, ?_, ?_, ?_, ?_⟩
  · intro hstop hdz
    rw [hconsf, film_step_stop elems i z r hstop, if_pos hdz]
  · intro hstop ht
    rw [hconss, scene_step_stop elems i z r hstop, if_pos ht]
  · intro t n hstop hint hvig
    have hstep := film_step_nonstop elems i z r hstop
    rw [hint] at hstep
    dsimp only at hstep
    rw [if_neg (not_lt.mpr (intersect_t_nonneg _ _ _ _ _ hint)),
      if_pos hvig] at hstep
    rw [hconsf, hstep]
  · intro t n hstop hint hvig
    have hstep := scene_step_nonstop elems i z r hstop
    rw [hint] at hstep
    dsimp only at hstep
    rw [if_neg (not_lt.mpr (intersect_t_nonneg _ _ _ _ _ hint)),
      if_pos hvig] at hstep
    rw [hconss, hstep]
  · intro hstop hdz ht hvig
    rw [hconsf, film_step_stop elems i z r hstop, if_neg (not_le.mpr hdz),
      if_neg (not_lt.mpr ht), if_pos hvig]
  · intro hstop ht hvig
    rw [hconss, scene_step_stop elems i z r hstop, if_neg (not_lt.mpr ht),
      if_pos hvig]
  · intro t n hstop hint hap hr
    have hstep := film_step_nonstop elems i z r hstop
    rw [hint] at hstep
    dsimp only at hstep
    rw [if_neg (not_lt.mpr (intersect_t_nonneg _ _ _ _ _ hint)),
      if_neg (not_lt.mpr hap), hr] at hstep
    rw [hconsf, hstep]
  · intro t n hstop hint hap hr
    have hstep := scene_step_nonstop elems i z r hstop
    rw [hint] at hstep
    dsimp only at hstep
    rw [if_neg (not_lt.mpr (intersect_t_nonneg _ _ _ _ _ hint)),
      if_neg (not_lt.mpr hap), hr] at hstep
    rw [hconss, hstep]

/-- Witness for the amended C5: a pure stop of thickness `1` and aperture
radius `1`; a film-side ray with axial direction `+z` (pointing back
toward the film plane) is rejected with the explicit no-ray outcome. -/
theorem trace_failure_outcomes_witness :
    trace_film_aux [⟨0, 1, 0, 1⟩] [0] 0 ⟨⟨0, 0, 0⟩, ⟨0, 0, 1⟩⟩ = .noRay :=
  (trace_failure_outcomes [⟨0, 1, 0, 1⟩] 0 0 ⟨⟨0, 0, 0⟩, ⟨0, 0, 1⟩⟩ []).1
    (by norm_num [List.getD]) (by norm_num)

/-- Counterexample to Claim C5 as stated: a stop-facing scene-side ray
(origin behind the stop, moving away from it) makes
`trace_lenses_from_scene` hit the `assert!(t >= 0.0)` with `t = -1` and
panic, instead of returning the explicit no-ray result the claim
promises for every per-ray failure. -/
theorem trace_from_scene_stop_panics :
    trace_lenses_from_scene stop_cam ⟨⟨0, 0, 2⟩, ⟨0, 0, 1⟩⟩ = .panicked := by
  have hfront : lens_front_z stop_cam = 1 := by
    norm_num [lens_front_z, stop_cam]
  unfold trace_lenses_from_scene
  rw [hfront]
  have hstop : ((stop_cam.element_interfaces).getD 0 default).curvature_radius = 0 := by
    norm_num [stop_cam, List.getD]
  have hlen : stop_cam.element_interfaces.length = 1 := by
    norm_num [stop_cam]
  rw [hlen]
  have hrange : List.range 1 = [0] := rfl
  rw [hrange]
  have hcons : trace_scene_aux stop_cam.element_interfaces [0] (-1)
        (flip_z_ray ⟨⟨0, 0, 2⟩, ⟨0, 0, 1⟩⟩)
      = match scene_step stop_cam.element_interfaces 0 (-1)
          (flip_z_ray ⟨⟨0, 0, 2⟩, ⟨0, 0, 1⟩⟩) with
        | .cont z1 r1 => trace_scene_aux stop_cam.element_interfaces [] z1 r1
        | .fail => .noRay
        | .panic => .panicked := rfl
  rw [hcons, scene_step_stop _ _ _ _ hstop, if_pos (by norm_num [flip_z_ray])]

/-! ## Claim C10 -/

/-- Claim C10: whenever `trace_lenses_from_film` or
`trace_lenses_from_scene` returns `false`, the caller-supplied output ray
is left completely unmodified, and the output ray is written (with the
traced ray) only when the whole element stack was traversed successfully. -/
theorem trace_out_param_frame (cam : RealisticCamera) (rc r_out : Ray) :
    (∀ r1, trace_lenses_from_film_w cam rc r_out = some (false, r1) →
      r1 = r_out) ∧
    (∀ r1, trace_lenses_from_film_w cam rc r_out = some (true, r1) →
      trace_lenses_from_film cam rc = .ok r1) ∧
    (∀ r1, trace_lenses_from_scene_w cam rc r_out = some (false, r1) →
      r1 = r_out) ∧
    (∀ r1, trace_lenses_from_scene_w cam rc r_out = some (true, r1) →
      trace_lenses_from_scene cam rc = .ok r1) := by
  refine ⟨?_, ?_, ?_, ?_⟩
  · intro r1 h
    unfold trace_lenses_from_film_w at h
    rcases ho : trace_lenses_from_film cam rc with r2 | _ | _ <;> rw [ho] at h
    · simp at h
    · simp only [Option.some.injEq, Prod.mk.injEq] at h
      exact h.2.symm
    · simp at h
  · intro r1 h
    unfold trace_lenses_from_film_w at h
    rcases ho : trace_lenses_from_film cam rc with r2 | _ | _ <;> rw [ho] at h
    · simp only [Option.some.injEq, Prod.mk.injEq] at h
      rw [h.2]
    · simp at h
    · simp at h
  · intro r1 h
    unfold trace_lenses_from_scene_w at h
    rcases ho : trace_lenses_from_scene cam rc with r2 | _ | _ <;> rw [ho] at h
    · simp at h
    · simp only [Option.some.injEq, Prod.mk.injEq] at h
      exact h.2.symm
    · simp at h
  · intro r1 h
    unfold trace_lenses_from_scene_w at h
    rcases ho : trace_lenses_from_scene cam rc with r2 | _ | _ <;> rw [ho] at h
    · simp only [Option.some.injEq, Prod.mk.injEq] at h
      rw [h.2]
    · simp at h
    · simp at h

/-- Witness for C10: tracing a ray through `stop_cam` that is vignetted at
the stop (radial distance 5 against aperture radius 1) returns the no-ray
flag with the caller's output ray bit-for-bit unchanged. -/
theorem trace_out_param_frame_witness :
    trace_lenses_from_film_w stop_cam ⟨⟨0, 0, 0⟩, ⟨5, 0, 1⟩⟩
        ⟨⟨9, 9, 9⟩, ⟨8, 8, 8⟩⟩ = some (false, ⟨⟨9, 9, 9⟩, ⟨8, 8, 8⟩⟩) ∧
    (⟨⟨9, 9, 9⟩, ⟨8, 8, 8⟩⟩ : Ray) = ⟨⟨9, 9, 9⟩, ⟨8, 8, 8⟩⟩ := by
  have hstop : ((stop_cam.element_interfaces).getD 0 default).curvature_radius = 0 := by
    norm_num [stop_cam, List.getD]
  have htrace : trace_lenses_from_film stop_cam ⟨⟨0, 0, 0⟩, ⟨5, 0, 1⟩⟩ = .noRay := by
    unfold trace_lenses_from_film
    have hlen : stop_cam.element_interfaces.length = 1 := by
      norm_num [stop_cam]
    rw [hlen]
    have hrange : (List.range 1).reverse = [0] := rfl
    rw [hrange]
    have hcons : trace_film_aux stop_cam.element_interfaces [0] 0
          (flip_z_ray ⟨⟨0, 0, 0⟩, ⟨5, 0, 1⟩⟩)
        = match film_step stop_cam.element_interfaces 0 0
            (flip_z_ray ⟨⟨0, 0, 0⟩, ⟨5, 0, 1⟩⟩) with
          | .cont z1 r1 => trace_film_aux stop_cam.element_interfaces [] z1 r1
          | .fail => .noRay
          | .panic => .panicked := rfl
    rw [hcons, film_step_stop _ _ _ _ hstop,
      if_neg (by norm_num [flip_z_ray] : ¬(0 : ℝ) ≤ (flip_z_ray ⟨⟨0, 0, 0⟩, ⟨5, 0, 1⟩⟩).d.z),
      if_neg (by norm_num [flip_z_ray, stop_cam, List.getD]),
      if_pos (by norm_num [flip_z_ray, stop_cam, List.getD, Ray.position])]
  have hw : trace_lenses_from_film_w stop_cam ⟨⟨0, 0, 0⟩, ⟨5, 0, 1⟩⟩
      ⟨⟨9, 9, 9⟩, ⟨8, 8, 8⟩⟩ = some (false, ⟨⟨9, 9, 9⟩, ⟨8, 8, 8⟩⟩) := by
    unfold trace_lenses_from_film_w
    rw [htrace]
  exact ⟨hw, (trace_out_param_frame stop_cam ⟨⟨0, 0, 0⟩, ⟨5, 0, 1⟩⟩
    ⟨⟨9, 9, 9⟩, ⟨8, 8, 8⟩⟩).1 _ hw⟩

/-! ## Claims C1 and C6: the stubbed focusing loops -/

theorem focus_distance_cases (cam : RealisticCamera) (f : ℝ) :
    focus_distance cam f = none ∨ focus_distance cam f = some 0 := by
  unfold focus_distance
  rcases hb : bound_exit_pupil cam 0 (0.001 * cam.film_diagonal) with _ | b
  · exact Or.inl rfl
  · exact Or.inr rfl

attribute [irreducible] focus_distance

set_option maxHeartbeats 1000000 in
theorem expand_upper_no_val (cam : RealisticCamera) (focus_dist : ℝ)
    (h : 0 < focus_dist) :
    ∀ (fuel : ℕ) (upper x : ℝ),
      expand_upper cam focus_dist fuel upper ≠ .val x := by
  intro fuel
  induction fuel with
  | zero =>
    intro upper x
    unfold expand_upper
    rcases focus_distance_cases cam upper with hc | hc <;> rw [hc] <;> dsimp only
    · simp
    · rw [if_pos h]
      simp
  | succ n ih =>
    intro upper x
    unfold expand_upper
    rcases focus_distance_cases cam upper with hc | hc <;> rw [hc] <;> dsimp only
    · simp
    · rw [if_pos h]
      exact ih (upper / 1.005) x

/-- Claim C6 (code bug): the bracket-raising loop of
`focus_binary_search` — `while focus_distance(upper) < focus_distance`
— never exits normally for any positive focus distance, no matter how
many iterations are allowed, because the stubbed `focus_distance` always
reports `0`; it either spins forever or a probe panic aborts it.  This
refutes the claim that every camera-core loop has a fixed, small
iteration bound. -/
theorem expand_upper_never_terminates (cam : RealisticCamera)
    (focus_dist upper : ℝ) (fuel : ℕ) (h : 0 < focus_dist) :
    ∀ x, expand_upper cam focus_dist fuel upper ≠ .val x :=
  fun x => expand_upper_no_val cam focus_dist h fuel upper x

/-- Witness for the C6 theorem at a concrete camera, focus distance `10`
(the source default), fuel `2`. -/
theorem expand_upper_never_terminates_witness :
    expand_upper stop_cam 10 2 1 ≠ .val 5 :=
  expand_upper_never_terminates stop_cam 10 1 2 (by norm_num) 5

/-- Claim C1 (code bug): `focus_binary_search` never returns a film
distance for any positive focus distance: the bracket expansion spins
forever on the stubbed `focus_distance` (or a panic aborts construction)
— and the bisection itself is commented out, the function body ending in
the placeholder `0.0` whose value `RealisticCamera::new` discards anyway. -/
theorem focus_binary_search_never_returns (cam : RealisticCamera)
    (focus_dist : ℝ) (fuel : ℕ) (h : 0 < focus_dist) :
    ∀ x, focus_binary_search cam focus_dist fuel ≠ .val x := by
  intro x
  unfold focus_binary_search
  rcases hft : focus_thick_lens cam focus_dist with _ | u
  · simp
  · dsimp only
    rcases hel : expand_lower cam focus_dist fuel u with y | _ | _
    · dsimp only
      rcases heu : expand_upper cam focus_dist fuel u with yu | _ | _
      · exact absurd heu (expand_upper_no_val cam focus_dist h fuel u yu)
      · simp
      · simp
    · simp
    · simp

/-- Witness for the C1 theorem at a concrete camera, the default focus
distance `10`, fuel `3`. -/
theorem focus_binary_search_never_returns_witness :
    focus_binary_search stop_cam 10 3 ≠ .val 0 :=
  focus_binary_search_never_returns stop_cam 10 3 (by norm_num) 0

/-! ## Claim C9 -/

/-- Claim C9 (code bug): the exit-pupil cache is never populated — the
constructor stores the empty `Vec::new()` in `exit_pupil_bounds`, and no
code path in the camera core writes to or reads from it (the consumer
`sample_exit_pupil` is an unimplemented stub), so there is no per-bucket
caching or reuse at all. -/
theorem exit_pupil_bounds_empty (sw : Bool) (lens_data : List ℝ)
    (aperture_diameter film_diagonal : ℝ) :
    (mk_realistic_camera sw lens_data aperture_diameter film_diagonal).exit_pupil_bounds
        = [] ∧
    ∀ focus_dist fuel,
      (RealisticCamera.new sw lens_data aperture_diameter focus_dist
          film_diagonal fuel).map (fun c => c.exit_pupil_bounds)
        = (RealisticCamera.new sw lens_data aperture_diameter focus_dist
            film_diagonal fuel).map (fun _ => ([] : List Bounds2f)) := by
  constructor
  · rfl
  · intro focus_dist fuel
    unfold RealisticCamera.new
    dsimp only
    rcases hb : focus_binary_search
        (mk_realistic_camera sw lens_data aperture_diameter film_diagonal)
        focus_dist fuel with x | _ | _
    · rfl
    · rfl
    · rfl

/-! ## Claim C8 -/

theorem rinv_core_bounds (b2 : ℕ) :
    ∀ i : ℕ, 0 ≤ rinv_core b2 i ∧ rinv_core b2 i < 1 := by
  intro i
  induction i using Nat.strong_induction_on with
  | _ i ih =>
    cases i with
    | zero =>
      constructor <;> norm_num [rinv_core]
    | succ j =>
      have hlt : (j + 1) / (b2 + 2) < j + 1 :=
        Nat.div_lt_self (Nat.succ_pos j) (by omega)
      have hrec := ih _ hlt
      have hb2 : (0 : ℝ) < (b2 : ℝ) + 2 := by positivity
      have hmod : ((j + 1) % (b2 + 2)) < b2 + 2 := Nat.mod_lt _ (by omega)
      have hmodR : (((j + 1) % (b2 + 2) : ℕ) : ℝ) ≤ (b2 : ℝ) + 1 := by
        have h1 : ((j + 1) % (b2 + 2)) ≤ b2 + 1 := by omega
        exact_mod_cast h1
      rw [rinv_core]
      constructor
      · exact div_nonneg (add_nonneg (Nat.cast_nonneg _) hrec.1) (le_of_lt hb2)
      · rw [div_lt_one hb2]
        linarith [hrec.2, hmodR]

theorem radical_inverse_bounds (base_index a : ℕ) :
    0 ≤ radical_inverse base_index a ∧ radical_inverse base_index a ≤ 1 := by
  unfold radical_inverse
  rcases rinv_core_bounds (if base_index = 0 then 0 else 1) a with ⟨h0, h1⟩
  exact ⟨h0, le_of_lt h1⟩

theorem zero_stop_not_inside (i : ℕ) :
    ¬ pnt2_inside_bnd2
      ⟨(bep_p_rear zero_stop_cam i).x, (bep_p_rear zero_stop_cam i).y⟩
      bnd2_default := by
  intro hin
  have h1 : bnd2_default.p_min.x ≤ (bep_p_rear zero_stop_cam i).x := hin.1
  have hx : (bep_p_rear zero_stop_cam i).x
      = lerp (radical_inverse 0 i) (-1.5 * 1) (1.5 * 1) := rfl
  have hu := radical_inverse_bounds 0 i
  have hlerp : lerp (radical_inverse 0 i) (-1.5 * 1) (1.5 * 1) ≤ 1.5 := by
    unfold lerp
    nlinarith [hu.1, hu.2]
  have hmin : bnd2_default.p_min.x = float_max := rfl
  rw [hmin, hx] at h1
  have hfm : (1.5 : ℝ) < float_max := by norm_num [float_max]
  linarith

theorem zero_stop_trace (r : Ray) (hdz : r.d.z = 0) :
    trace_lenses_from_film zero_stop_cam r = .noRay := by
  unfold trace_lenses_from_film
  have hlen : zero_stop_cam.element_interfaces.length = 1 := rfl
  rw [hlen]
  have hrange : (List.range 1).reverse = [0] := rfl
  rw [hrange]
  have hstop : ((zero_stop_cam.element_interfaces).getD 0 default).curvature_radius
      = 0 := rfl
  have hcons : trace_film_aux zero_stop_cam.element_interfaces [0] 0 (flip_z_ray r)
      = match film_step zero_stop_cam.element_interfaces 0 0 (flip_z_ray r) with
        | .cont z1 r1 => trace_film_aux zero_stop_cam.element_interfaces [] z1 r1
        | .fail => .noRay
        | .panic => .panicked := rfl
  rw [hcons, film_step_stop _ _ _ _ hstop,
    if_pos (by rw [show (flip_z_ray r).d.z = -r.d.z from rfl, hdz, neg_zero])]

theorem zero_stop_sample_trace (x0 x1 : ℝ) (i : ℕ) :
    trace_lenses_from_film zero_stop_cam
      ⟨bep_p_film zero_stop_cam x0 x1 i,
       psub (bep_p_rear zero_stop_cam i) (bep_p_film zero_stop_cam x0 x1 i)⟩
      = .noRay := by
  apply zero_stop_trace
  show (psub (bep_p_rear zero_stop_cam i) (bep_p_film zero_stop_cam x0 x1 i)).z = 0
  have h1 : (bep_p_rear zero_stop_cam i).z = 0 := rfl
  have h2 : (bep_p_film zero_stop_cam x0 x1 i).z = 0 := rfl
  rw [show (psub (bep_p_rear zero_stop_cam i) (bep_p_film zero_stop_cam x0 x1 i)).z
    = (bep_p_rear zero_stop_cam i).z - (bep_p_film zero_stop_cam x0 x1 i).z from rfl,
    h1, h2, sub_zero]

theorem bep_loop_zero_stop (x0 x1 : ℝ) :
    ∀ remaining : ℕ,
      bep_loop zero_stop_cam x0 x1 remaining (bnd2_default, 0)
        = some (bnd2_default, 0) := by
  intro remaining
  induction remaining with
  | zero => rfl
  | succ k ih =>
    unfold bep_loop
    dsimp only
    rw [if_neg (zero_stop_not_inside (n_samples - (k + 1))),
      zero_stop_sample_trace x0 x1 (n_samples - (k + 1))]
    exact ih

/-- Claim C8: when zero of the Monte-Carlo samples in `bound_exit_pupil`
exit the lens system, the function returns exactly the 1.5×-enlarged
projected rear-element square, without the final
`2 * diagonal / sqrt(sample_count)` expansion that is applied whenever at
least one sample exits. -/
theorem bound_exit_pupil_zero_exit (cam : RealisticCamera) (x0 x1 : ℝ)
    (b : Bounds2f) (n_exiting : ℕ)
    (h : bep_loop cam x0 x1 n_samples (bnd2_default, 0)
      = some (b, n_exiting)) :
    (n_exiting = 0 → bound_exit_pupil cam x0 x1 = some (proj_rear_bounds cam)) ∧
    (n_exiting ≠ 0 → bound_exit_pupil cam x0 x1
      = some (bnd2_expand b (2 * bnd2_diagonal_length (proj_rear_bounds cam)
          / Real.sqrt (n_samples : ℝ)))) := by
  constructor <;> intro hz <;> unfold bound_exit_pupil <;> rw [h] <;>
    simp only [Option.map_some']
  · rw [if_pos hz]
  · rw [if_neg hz]

/-- Witness for C8: for the zero-thickness stop camera every sample ray is
degenerate (axial direction `0`, rejected by the stop guard) and no sample
point lies in the empty initial bounds, so zero samples exit over the full
`2^20`-sample loop and `bound_exit_pupil` returns the enlarged projected
rear square unexpanded. -/
theorem bound_exit_pupil_zero_exit_witness :
    bound_exit_pupil zero_stop_cam 0 1 = some (proj_rear_bounds zero_stop_cam) :=
  (bound_exit_pupil_zero_exit zero_stop_cam 0 1 bnd2_default 0
    (bep_loop_zero_stop 0 1 n_samples)).1 rfl

end



